import Mathlib

/-!
# Verification of the EMIT orthorectification remap

Shallow embedding of the core array transforms of the EMIT-Data-Resources
notebooks: the GLT-based orthorectification remap, the geotransform-derived
lat/lon coordinate vectors, the good-wavelengths band masking, and the
quality-flag mask combination.

Sources embedded:
* `python/how-tos/How_to_Orthorectify.ipynb` — GLT stacking, valid mask,
  in-place 1-based → 0-based correction, fancy-index gather, lat/lon loops.
* the L2A-reflectance exploration notebook — `good_wavelengths` masking.
* `emit_tools.quality_mask` — only its caller is in the sources; modelled
  from the specification.

Machine floats holding integer GLT indices are modelled as `FloatVal`
(an integer or NaN); reflectance values as `RVal` (a rational or NaN);
plain numeric arrays as functions from indices to `ℚ` or `ℤ`.
-/

namespace Emit

/-- `GLT_NODATA_VALUE = 0`: the no-data sentinel of the GLT index arrays. -/
def GLT_NODATA_VALUE : ℤ := 0

/-- A floating-point cell of a GLT file array: an (integral) finite value or NaN. -/
inductive FloatVal where
  | num (z : ℤ)
  | nan
deriving DecidableEq

/-- `np.nan_to_num(·, nan=GLT_NODATA_VALUE)` on one cell: NaN becomes the
sentinel `0`, finite values are kept. -/
def nanToNum (v : FloatVal) : ℤ :=
  match v with
  | .num z => z
  | .nan => GLT_NODATA_VALUE

/-- `glt_array = np.nan_to_num(np.stack([glt_x, glt_y], axis=-1), nan=0).astype(int)`:
cell `(y, x)` of the stacked array is the pair (glt_x value, glt_y value)
with NaNs replaced by the sentinel. Component `.1` is the `glt_x` slot
(last-axis index 0), component `.2` the `glt_y` slot (last-axis index 1). -/
def buildGltArray (gltx glty : ℕ → ℕ → FloatVal) : ℕ → ℕ → ℤ × ℤ :=
  fun y x => (nanToNum (gltx y x), nanToNum (glty y x))

/-- `valid_glt = np.all(glt_array != GLT_NODATA_VALUE, axis=-1)`: a cell is
valid when both stacked components differ from the sentinel. -/
def validGlt (glt : ℕ → ℕ → ℤ × ℤ) (y x : ℕ) : Bool :=
  ((glt y x).1 != GLT_NODATA_VALUE) && ((glt y x).2 != GLT_NODATA_VALUE)

/-- `glt_array[valid_glt] -= 1`: the state of the stacked GLT array after the
in-place 1-based → 0-based correction — valid cells are decremented in both
components, invalid cells are untouched. -/
def gltAfter (glt : ℕ → ℕ → ℤ × ℤ) : ℕ → ℕ → ℤ × ℤ :=
  fun y x =>
    if validGlt glt y x then ((glt y x).1 - 1, (glt y x).2 - 1)
    else glt y x

/-- NumPy integer fancy-index resolution on an axis of length `n`: an index in
`[0, n)` is taken as is, an index in `[-n, 0)` wraps Python-style to `n + i`,
anything else raises `IndexError` (here: `none`). -/
def npIndex (n : ℕ) (i : ℤ) : Option ℕ :=
  if 0 ≤ i ∧ i < (n : ℤ) then some i.toNat
  else if -(n : ℤ) ≤ i ∧ i < 0 then some ((n : ℤ) + i).toNat
  else none

/-- The NumPy index error raised by an unresolvable fancy index. -/
inductive RemapError where
  | indexError
deriving DecidableEq

/-- Value of one output cell of
`out_ds[valid_glt, :] = ds_array[glt_array[valid_glt, 1], glt_array[valid_glt, 0], :]`:
a valid cell gathers `ds_array` at the decremented (row = glt_y slot,
col = glt_x slot) pair, an invalid cell keeps the fill value the output was
allocated with; `none` marks an unresolvable gather index. -/
def remapCell (D C : ℕ) (raw : ℕ → ℕ → ℕ → ℚ) (glt : ℕ → ℕ → ℤ × ℤ)
    (fill : ℚ) (y x b : ℕ) : Option ℚ :=
  if validGlt glt y x then
    match npIndex D (gltAfter glt y x).2, npIndex C (gltAfter glt y x).1 with
    | some dy, some dx => some (raw dy dx b)
    | _, _ => none
  else some fill

/-- The fancy-index gather succeeds iff every valid cell of the `Y × X` grid
resolves both its row and its column index. NumPy evaluates the whole gather
before assigning, so a single unresolvable index fails the entire operation. -/
def gatherOk (D C Y X : ℕ) (glt : ℕ → ℕ → ℤ × ℤ) : Bool :=
  (List.range Y).all fun y => (List.range X).all fun x =>
    !(validGlt glt y x) ||
      ((npIndex D (gltAfter glt y x).2).isSome &&
       (npIndex C (gltAfter glt y x).1).isSome)

/-- The orthorectification remap of `How_to_Orthorectify.ipynb`:
allocate `out_ds` pre-filled with `fill`, compute `valid_glt`, decrement the
valid GLT entries, and gather `ds_array` rows/columns into the valid cells.
Raw-cube dimensions are `D` (downtrack) and `C` (crosstrack); the output grid
is `Y × X`. The whole operation fails with `IndexError` when any gather index
is unresolvable; otherwise it returns the output cube as a function of
`(y, x, band)`. -/
def remap (D C Y X : ℕ) (raw : ℕ → ℕ → ℕ → ℚ) (glt : ℕ → ℕ → ℤ × ℤ)
    (fill : ℚ) : Except RemapError (ℕ → ℕ → ℕ → ℚ) :=
  if gatherOk D C Y X glt then
    .ok fun y x b => (remapCell D C raw glt fill y x b).getD fill
  else
    .error .indexError

/-- Reads one cell of a remap result: `none` when the remap failed. -/
def remapVal (e : Except RemapError (ℕ → ℕ → ℕ → ℚ)) (y x b : ℕ) : Option ℚ :=
  match e with
  | .ok f => some (f y x b)
  | .error _ => none

/-- The six geotransform coefficients `GT[0] .. GT[5]` of the notebook:
`c0` x-coordinate of the upper-left corner, `c1` W-E pixel width,
`c2` row rotation, `c3` y-coordinate of the upper-left corner,
`c4` column rotation, `c5` N-S pixel height. -/
structure GeoT where
  c0 : ℚ
  c1 : ℚ
  c2 : ℚ
  c3 : ℚ
  c4 : ℚ
  c5 : ℚ
deriving DecidableEq

/-- One step of the longitude loop: `x_geo = (GT[0] + 0.5*GT[1]) + x * GT[1]`. -/
def lonAt (gt : GeoT) (x : ℕ) : ℚ := (gt.c0 + (1 / 2) * gt.c1) + (x : ℚ) * gt.c1

/-- One step of the latitude loop: `y_geo = (GT[3] + 0.5*GT[5]) + y * GT[5]`. -/
def latAt (gt : GeoT) (y : ℕ) : ℚ := (gt.c3 + (1 / 2) * gt.c5) + (y : ℚ) * gt.c5

/-- `lon`: the length-`dim_x` vector filled by the `for x in np.arange(dim_x)`
loop, where `dim_x = loc.glt_x.shape[1]` (the GLT width). -/
def lonVec (gt : GeoT) (dimx : ℕ) : List ℚ := (List.range dimx).map (lonAt gt)

/-- `lat`: the length-`dim_y` vector filled by the `for y in np.arange(dim_y)`
loop, where `dim_y = loc.glt_x.shape[0]` (the GLT height). -/
def latVec (gt : GeoT) (dimy : ℕ) : List ℚ := (List.range dimy).map (latAt gt)

/-- The configuration error the specification prescribes for a rotated
(non-north-up) geotransform. -/
inductive ConfigurationError where
  | rotatedGrid
deriving DecidableEq

/-- The lat/lon coordinate computation of `How_to_Orthorectify.ipynb`, with the
error channel the specification prescribes. The source performs no check on
`GT[2]`/`GT[4]` — the loops unconditionally apply the north-up formulas, so
this computation returns `.ok` for every geotransform. -/
def buildCoords (gt : GeoT) (dimy dimx : ℕ) :
    Except ConfigurationError (List ℚ × List ℚ) :=
  .ok (latVec gt dimy, lonVec gt dimx)

/-- A floating-point reflectance value: a finite rational or NaN. -/
inductive RVal where
  | val (q : ℚ)
  | nan
deriving DecidableEq

/-- `ds['reflectance'].data[:, :, ds['good_wavelengths'].data == 0] = np.nan`:
the reflectance cube after the good-wavelengths masking — every band whose
`good_wavelengths` entry is `0` is NaN at every pixel, the other bands keep
their reflectance. -/
def maskGoodWavelengths (refl : ℕ → ℕ → ℕ → RVal) (good : ℕ → ℤ) :
    ℕ → ℕ → ℕ → RVal :=
  fun d c b => if good b = 0 then RVal.nan else refl d c b

/-- Modelled from the spec: `emit_tools.quality_mask` is not among the source
files (only its caller in `How_to_use_EMIT_Quality_data.ipynb` is). Per the
specification, given the named flag layers (`layers i d c` is layer `i` at
pixel `(d, c)`) and the caller-selected flag indices, the combined mask is the
elementwise logical OR of the selected layers exceeding the `> 0` threshold. -/
def quality_mask (layers : ℕ → ℕ → ℕ → ℚ) (flags : List ℕ) (d c : ℕ) : Bool :=
  flags.any fun i => decide (0 < layers i d c)

/-- NumPy floating dtypes relevant to the remap. -/
inductive Dtype where
  | float32
  | float64
deriving DecidableEq

/-- `out_ds = np.zeros((...), dtype=np.float32) + fill_value`: the output is
allocated with the literal dtype `np.float32`, whatever the dtype of the
input cube is. -/
def remapAllocDtype (inDtype : Dtype) : Dtype := Dtype.float32

/-- Modelled platform semantics of the gather-assignment store: a NumPy store
into the float32 output array is bit-exact exactly when the source array has
the same dtype; a float64 source is rounded to float32 on store. -/
def storeExact (inDtype : Dtype) : Bool := inDtype == remapAllocDtype inDtype

theorem npIndex_in_range (n : ℕ) (i : ℤ) (h0 : 0 ≤ i) (hn : i < (n : ℤ)) :
    npIndex n i = some i.toNat := by
  simp only [npIndex]
  rw [if_pos ⟨h0, hn⟩]

theorem remap_ok_elim (D C Y X : ℕ) (raw : ℕ → ℕ → ℕ → ℚ)
    (glt : ℕ → ℕ → ℤ × ℤ) (fill : ℚ) (out : ℕ → ℕ → ℕ → ℚ)
    (hok : remap D C Y X raw glt fill = .ok out) :
    out = fun y x b => (remapCell D C raw glt fill y x b).getD fill := by
  unfold remap at hok
  by_cases hg : gatherOk D C Y X glt = true
  · rw [if_pos hg] at hok
    injection hok with h
    exact h.symm
  · rw [if_neg hg] at hok
    exact absurd hok (by simp)

theorem validGlt_of_bounds (glt : ℕ → ℕ → ℤ × ℤ) (y x : ℕ)
    (hgx1 : 1 ≤ (glt y x).1) (hgy1 : 1 ≤ (glt y x).2) :
    validGlt glt y x = true := by
  simp only [validGlt, GLT_NODATA_VALUE, Bool.and_eq_true, bne_iff_ne, ne_eq]
  omega

/-- A 4 (downtrack) × 3 (crosstrack) × 2 (band) raw cube with pairwise
distinct values, used to instantiate the remap theorems. -/
def rawEx : ℕ → ℕ → ℕ → ℚ := fun d c b => ((d * 100 + c * 10 + b : ℕ) : ℚ)

/-- A 2 × 2 stacked GLT array: cell (0,1) holds (glt_x, glt_y) = (2, 1),
cell (1,0) holds (1, 2), the remaining cells are the no-data sentinel. -/
def gltEx : ℕ → ℕ → ℤ × ℤ := fun y x =>
  if y = 0 ∧ x = 1 then (2, 1)
  else if y = 1 ∧ x = 0 then (1, 2)
  else (0, 0)

/-- The output cube the remap produces on `rawEx`/`gltEx` with fill `-9999`. -/
def outEx : ℕ → ℕ → ℕ → ℚ :=
  fun y x b => (remapCell 4 3 rawEx gltEx (-9999) y x b).getD (-9999)

/-- C1: For every ortho cell whose GLT pair is valid (`glt_x ≠ 0` and
`glt_y ≠ 0`, and, per the GLT invariant, within `[1, crosstrack]` /
`[1, downtrack]`), the remap output at that cell equals, for every band,
exactly the raw-cube value at the 0-based indices `(glt_y - 1, glt_x - 1)`
— a verbatim copy, no interpolation or blending. -/
theorem remap_valid_cell_is_verbatim_copy (D C Y X : ℕ) (raw : ℕ → ℕ → ℕ → ℚ)
    (glt : ℕ → ℕ → ℤ × ℤ) (fill : ℚ) (out : ℕ → ℕ → ℕ → ℚ) (y x b : ℕ)
    (hy : y < Y) (hx : x < X)
    (hgx : (glt y x).1 ≠ 0) (hgy : (glt y x).2 ≠ 0)
    (hgx1 : 1 ≤ (glt y x).1) (hgxC : (glt y x).1 ≤ (C : ℤ))
    (hgy1 : 1 ≤ (glt y x).2) (hgyD : (glt y x).2 ≤ (D : ℤ))
    (hok : remap D C Y X raw glt fill = .ok out) :
    out y x b = raw ((glt y x).2 - 1).toNat ((glt y x).1 - 1).toNat b := by
  have hval := validGlt_of_bounds glt y x hgx1 hgy1
  have hD : npIndex D ((glt y x).2 - 1) = some ((glt y x).2 - 1).toNat :=
    npIndex_in_range D _ (by omega) (by omega)
  have hC : npIndex C ((glt y x).1 - 1) = some ((glt y x).1 - 1).toNat :=
    npIndex_in_range C _ (by omega) (by omega)
  rw [remap_ok_elim D C Y X raw glt fill out hok]
  simp [remapCell, gltAfter, hval, hD, hC]

/-- Witness for C1 at the concrete scenario: cell (0,1) carries (glt_x, glt_y)
= (2, 1), so the output there is `rawEx 0 1 0 = 10`. -/
theorem remap_valid_cell_is_verbatim_copy_witness :
    remap 4 3 2 2 rawEx gltEx (-9999) = Except.ok outEx ∧ outEx 0 1 0 = 10 :=
  ⟨rfl, by
    have h := remap_valid_cell_is_verbatim_copy 4 3 2 2 rawEx gltEx (-9999)
      outEx 0 1 0 (by decide) (by decide) (by decide) (by decide) (by decide)
      (by decide) (by decide) (by decide) rfl
    simpa [rawEx, gltEx] using h⟩

/-- C2: For every ortho cell where `glt_x = 0` or `glt_y = 0` (the no-data
sentinel in either coordinate), the remap output at that cell is the fill
value for every band — both coordinates must be non-zero for a cell to be
filled with data. -/
theorem remap_sentinel_cell_is_fill (D C Y X : ℕ) (raw : ℕ → ℕ → ℕ → ℚ)
    (glt : ℕ → ℕ → ℤ × ℤ) (fill : ℚ) (out : ℕ → ℕ → ℕ → ℚ) (y x b : ℕ)
    (hy : y < Y) (hx : x < X)
    (hsent : (glt y x).1 = 0 ∨ (glt y x).2 = 0)
    (hok : remap D C Y X raw glt fill = .ok out) :
    out y x b = fill := by
  have hval : validGlt glt y x = false := by
    simp only [validGlt, GLT_NODATA_VALUE, Bool.and_eq_false_iff, bne_eq_false_iff_eq]
    rcases hsent with h | h
    · exact Or.inl h
    · exact Or.inr h
  rw [remap_ok_elim D C Y X raw glt fill out hok]
  simp [remapCell, hval]

/-- Witness for C2 at the concrete scenario: cell (0,0) holds the sentinel
pair (0,0), so the output there is the fill value `-9999`. -/
theorem remap_sentinel_cell_is_fill_witness :
    remap 4 3 2 2 rawEx gltEx (-9999) = Except.ok outEx ∧ outEx 0 0 0 = -9999 :=
  ⟨rfl, remap_sentinel_cell_is_fill 4 3 2 2 rawEx gltEx (-9999) outEx 0 0 0
    (by decide) (by decide) (Or.inl (by decide)) rfl⟩

/-- A geotransform with a non-zero row rotation (`GT[2] = 0.01`). -/
def gtRot : GeoT := ⟨0, 1, 1 / 100, 0, 0, -1⟩

/-- Counterexample to C3: with row rotation `0.01` the coordinate computation
does not fail — it returns `.ok`, silently dropping the rotation terms. -/
theorem buildCoords_rotated_counterexample :
    gtRot.c2 ≠ 0 ∧
    buildCoords gtRot 2 2 ≠ Except.error ConfigurationError.rotatedGrid := by
  refine ⟨by norm_num [gtRot], fun h => ?_⟩
  simp [buildCoords] at h

/-- C3 (amended): the coordinate computation performs no rotation check; it
succeeds for every geotransform, and its output is the same as for the
geotransform with `GT[2]` and `GT[4]` zeroed — the rotation coefficients are
ignored, a north-up grid is silently assumed. -/
theorem buildCoords_ignores_rotation (gt : GeoT) (r s : ℚ) (dimy dimx : ℕ) :
    buildCoords (GeoT.mk gt.c0 gt.c1 r gt.c3 s gt.c5) dimy dimx
      = buildCoords gt dimy dimx ∧
    buildCoords gt dimy dimx
      ≠ Except.error ConfigurationError.rotatedGrid := by
  refine ⟨by simp [buildCoords, latVec, lonVec, latAt, lonAt], fun h => ?_⟩
  simp [buildCoords] at h

/-- A 1 × 1 stacked GLT array whose single cell is the valid pair (1, 1). -/
def gltMut : ℕ → ℕ → ℤ × ℤ := fun _ _ => (1, 1)

/-- Counterexample to C4: the in-place 1-based → 0-based correction modifies
the GLT input (cell (0,0) changes from (1,1) to (0,0)), and re-invoking the
remap on the mutated array yields different output (`0` then `-9999`). -/
theorem remap_mutates_glt_counterexample :
    gltAfter gltMut 0 0 ≠ gltMut 0 0 ∧
    remapVal (remap 4 3 1 1 rawEx gltMut (-9999)) 0 0 0 = some 0 ∧
    remapVal (remap 4 3 1 1 rawEx (gltAfter gltMut) (-9999)) 0 0 0
      = some (-9999) := by
  refine ⟨by decide, by decide, by decide⟩

/-- C4 (amended): the remap's output is determined by its inputs and the raw
cube is only read, but the stacked GLT array is not read-only: the in-place
correction changes it at every valid cell and leaves exactly the invalid
cells untouched, so re-invoking the remap step on the same materialized GLT
array is not bit-identical. -/
theorem remap_glt_mutation (glt : ℕ → ℕ → ℤ × ℤ) (y x : ℕ) :
    (validGlt glt y x = true → gltAfter glt y x ≠ glt y x) ∧
    (validGlt glt y x = false → gltAfter glt y x = glt y x) := by
  constructor
  · intro h hEq
    rw [gltAfter, if_pos h, Prod.ext_iff] at hEq
    omega
  · intro h
    rw [gltAfter, if_neg (by simp [h])]

/-- Witness for C4 (amended): the valid cell of `gltMut` is modified, the
sentinel cell (0,0) of `gltEx` is untouched. -/
theorem remap_glt_mutation_witness :
    gltAfter gltMut 1 1 ≠ gltMut 1 1 ∧ gltAfter gltEx 0 0 = gltEx 0 0 :=
  ⟨(remap_glt_mutation gltMut 1 1).1 rfl, (remap_glt_mutation gltEx 0 0).2 rfl⟩

theorem npIndex_unresolvable (n : ℕ) (i : ℤ)
    (h : (n : ℤ) ≤ i ∨ i < -(n : ℤ)) : npIndex n i = none := by
  simp only [npIndex]
  rw [if_neg (by omega), if_neg (by omega)]

theorem gatherOk_cell (D C Y X : ℕ) (glt : ℕ → ℕ → ℤ × ℤ) (y x : ℕ)
    (hy : y < Y) (hx : x < X) (hg : gatherOk D C Y X glt = true)
    (hval : validGlt glt y x = true) :
    (npIndex D (gltAfter glt y x).2).isSome = true ∧
    (npIndex C (gltAfter glt y x).1).isSome = true := by
  unfold gatherOk at hg
  rw [List.all_eq_true] at hg
  have h1 := hg y (List.mem_range.mpr hy)
  simp only [List.all_eq_true] at h1
  have h2 := h1 x (List.mem_range.mpr hx)
  simpa [hval] using h2

/-- A 1 × 1 stacked GLT array whose single cell is the pair
(glt_x, glt_y) = (-3, 2): valid (both non-zero), but the corrected
x-index −4 lies outside `[0, crosstrack)`. -/
def gltNeg : ℕ → ℕ → ℤ × ℤ := fun _ _ => (-3, 2)

/-- Counterexample to C5: on a 5 × 5 raw grid, the cell (glt_x, glt_y) =
(-3, 2) has corrected x-index −4 ∉ [0, 5), yet the remap does not fail — the
negative index wraps Python-style to column 1 and the remap returns the raw
value at row 1, column 1 (`rawEx 1 1 0 = 110`). -/
theorem remap_out_of_range_counterexample :
    (gltNeg 0 0).1 ≠ 0 ∧ (gltNeg 0 0).2 ≠ 0 ∧
    ¬(0 ≤ (gltNeg 0 0).1 - 1 ∧ (gltNeg 0 0).1 - 1 < (5 : ℤ)) ∧
    remapVal (remap 5 5 1 1 rawEx gltNeg (-9999)) 0 0 0 = some 110 := by
  refine ⟨by decide, by decide, by decide, by decide⟩

/-- C5 (amended): a corrected index that NumPy cannot resolve — at or above
the axis length, or below its negation — makes the whole remap fail with
`IndexError` and no output is produced; but a corrected index in
`[-length, 0)` (from a negative GLT entry) is silently wrapped Python-style,
not reported. -/
theorem remap_unresolvable_index_fails (D C Y X : ℕ) (raw : ℕ → ℕ → ℕ → ℚ)
    (glt : ℕ → ℕ → ℤ × ℤ) (fill : ℚ) (y x : ℕ)
    (hy : y < Y) (hx : x < X) (hval : validGlt glt y x = true)
    (hbad : (D : ℤ) ≤ (glt y x).2 - 1 ∨ (glt y x).2 - 1 < -(D : ℤ) ∨
            (C : ℤ) ≤ (glt y x).1 - 1 ∨ (glt y x).1 - 1 < -(C : ℤ)) :
    remap D C Y X raw glt fill = .error .indexError := by
  have hga : gltAfter glt y x = ((glt y x).1 - 1, (glt y x).2 - 1) := by
    rw [gltAfter, if_pos hval]
  have hg : ¬ gatherOk D C Y X glt = true := by
    intro hgt
    obtain ⟨hD, hC⟩ := gatherOk_cell D C Y X glt y x hy hx hgt hval
    rcases hbad with h | h | h | h
    · rw [hga] at hD
      rw [npIndex_unresolvable D _ (Or.inl h)] at hD
      exact absurd hD (by simp)
    · rw [hga] at hD
      rw [npIndex_unresolvable D _ (Or.inr h)] at hD
      exact absurd hD (by simp)
    · rw [hga] at hC
      rw [npIndex_unresolvable C _ (Or.inl h)] at hC
      exact absurd hC (by simp)
    · rw [hga] at hC
      rw [npIndex_unresolvable C _ (Or.inr h)] at hC
      exact absurd hC (by simp)
  rw [remap, if_neg hg]

/-- A 1 × 1 stacked GLT array whose single cell is (glt_x, glt_y) = (1, 8). -/
def gltBig : ℕ → ℕ → ℤ × ℤ := fun _ _ => (1, 8)

/-- Witness for C5 (amended): on a 2-row raw grid, glt_y = 8 gives corrected
row index 7 ≥ 2, and the remap fails with `IndexError`. -/
theorem remap_unresolvable_index_fails_witness :
    remap 2 3 1 1 rawEx gltBig (-9999) = .error .indexError :=
  remap_unresolvable_index_fails 2 3 1 1 rawEx gltBig (-9999) 0 0
    (by decide) (by decide) (by decide) (by decide)

theorem getD_map_range (n i : ℕ) (f : ℕ → ℚ) (d : ℚ) (h : i < n) :
    (((List.range n).map f).getD i d) = f i := by
  rw [List.getD_eq_getElem?_getD]
  simp [List.getElem?_range, h]

/-- C6: the coordinate vectors have lengths `dim_x`/`dim_y` taken from the
GLT shape, and for every in-range pixel index they hold the pixel-center
coordinates `origin + 0.5·pixel_size + index·pixel_size`. -/
theorem geotransform_pixel_center_coords (gt : GeoT) (Y X y x : ℕ)
    (hx : x < X) (hy : y < Y) :
    (lonVec gt X).length = X ∧ (latVec gt Y).length = Y ∧
    (lonVec gt X).getD x 0 = gt.c0 + (1 / 2) * gt.c1 + (x : ℚ) * gt.c1 ∧
    (latVec gt Y).getD y 0 = gt.c3 + (1 / 2) * gt.c5 + (y : ℚ) * gt.c5 := by
  refine ⟨by simp [lonVec], by simp [latVec], ?_, ?_⟩
  · rw [lonVec, getD_map_range X x _ _ hx, lonAt]
  · rw [latVec, getD_map_range Y y _ _ hy, latAt]

/-- A concrete north-up geotransform: origin (100, 50), pixel width 2,
pixel height −3. -/
def gtW : GeoT := ⟨100, 2, 0, 50, 0, -3⟩

/-- Witness for C6: with `gtW`, `lon[2] = 100 + 1 + 4 = 105` and
`lat[1] = 50 − 3/2 − 3 = 91/2`. -/
theorem geotransform_pixel_center_coords_witness :
    (lonVec gtW 4).getD 2 0 = 105 ∧ (latVec gtW 3).getD 1 0 = 91 / 2 := by
  obtain ⟨-, -, h3, h4⟩ :=
    geotransform_pixel_center_coords gtW 3 4 1 2 (by decide) (by decide)
  refine ⟨?_, ?_⟩
  · rw [h3]; norm_num [gtW]
  · rw [h4]; norm_num [gtW]

/-- C7: the good-wavelengths masking sets every band whose `good_wavelengths`
entry is 0 to NaN at every pixel, and leaves every band whose entry is 1
unchanged. -/
theorem good_wavelengths_masking (refl : ℕ → ℕ → ℕ → RVal) (good : ℕ → ℤ)
    (d c b : ℕ) :
    (good b = 0 → maskGoodWavelengths refl good d c b = RVal.nan) ∧
    (good b = 1 → maskGoodWavelengths refl good d c b = refl d c b) := by
  constructor
  · intro h
    rw [maskGoodWavelengths, if_pos h]
  · intro h
    rw [maskGoodWavelengths, if_neg (by rw [h]; exact one_ne_zero)]

/-- A `good_wavelengths` vector `[1, 0, 1]`. -/
def goodEx : ℕ → ℤ := fun b => if b = 1 then 0 else 1

/-- A reflectance cube with value `d + c + b` at every cell. -/
def reflEx : ℕ → ℕ → ℕ → RVal := fun d c b => RVal.val ((d + c + b : ℕ) : ℚ)

/-- Witness for C7: with `good_wavelengths = [1, 0, 1]`, band 1 becomes NaN
and band 0 is unchanged at pixel (0, 0). -/
theorem good_wavelengths_masking_witness :
    maskGoodWavelengths reflEx goodEx 0 0 1 = RVal.nan ∧
    maskGoodWavelengths reflEx goodEx 0 0 0 = reflEx 0 0 0 :=
  ⟨(good_wavelengths_masking reflEx goodEx 0 0 1).1 rfl,
   (good_wavelengths_masking reflEx goodEx 0 0 0).2 rfl⟩

theorem remap_fill_aux (D C Y X : ℕ) (raw : ℕ → ℕ → ℕ → ℚ)
    (glt : ℕ → ℕ → ℤ × ℤ) (fill : ℚ) (out : ℕ → ℕ → ℕ → ℚ) (y x b : ℕ)
    (hval : validGlt glt y x = false)
    (hok : remap D C Y X raw glt fill = .ok out) :
    out y x b = fill := by
  rw [remap_ok_elim D C Y X raw glt fill out hok]
  simp [remapCell, hval]

/-- C8: when the paired GLT index array is built, a NaN entry of `glt_x` or
`glt_y` is replaced by the no-data sentinel 0, so the cell is treated as
no-data and the remap output there is the fill value for every band. -/
theorem nan_glt_entry_becomes_sentinel (D C Y X : ℕ) (raw : ℕ → ℕ → ℕ → ℚ)
    (gltx glty : ℕ → ℕ → FloatVal) (fill : ℚ) (out : ℕ → ℕ → ℕ → ℚ)
    (y x b : ℕ) (hy : y < Y) (hx : x < X)
    (hnan : gltx y x = FloatVal.nan ∨ glty y x = FloatVal.nan)
    (hok : remap D C Y X raw (buildGltArray gltx glty) fill = .ok out) :
    (gltx y x = FloatVal.nan →
      (buildGltArray gltx glty y x).1 = GLT_NODATA_VALUE) ∧
    (glty y x = FloatVal.nan →
      (buildGltArray gltx glty y x).2 = GLT_NODATA_VALUE) ∧
    out y x b = fill := by
  refine ⟨fun h => by simp [buildGltArray, h, nanToNum],
          fun h => by simp [buildGltArray, h, nanToNum], ?_⟩
  have hval : validGlt (buildGltArray gltx glty) y x = false := by
    rcases hnan with h | h
    · simp [validGlt, buildGltArray, h, nanToNum]
    · simp [validGlt, buildGltArray, h, nanToNum]
  exact remap_fill_aux D C Y X raw _ fill out y x b hval hok

/-- The `glt_x` file array for the witness: NaN at (0, 0), 1 elsewhere. -/
def gltxEx : ℕ → ℕ → FloatVal := fun y x =>
  if y = 0 ∧ x = 0 then FloatVal.nan else FloatVal.num 1

/-- The `glt_y` file array for the witness: 1 everywhere. -/
def gltyEx : ℕ → ℕ → FloatVal := fun _ _ => FloatVal.num 1

/-- Witness for C8: the NaN `glt_x` entry at (0, 0) becomes the sentinel and
the output cell holds the fill value `-9999`. -/
theorem nan_glt_entry_becomes_sentinel_witness :
    (buildGltArray gltxEx gltyEx 0 0).1 = GLT_NODATA_VALUE ∧
    remapVal (remap 4 3 1 1 rawEx (buildGltArray gltxEx gltyEx) (-9999)) 0 0 0
      = some (-9999) := by
  obtain ⟨h1, -, h3⟩ :=
    nan_glt_entry_becomes_sentinel 4 3 1 1 rawEx gltxEx gltyEx (-9999)
      (fun y x b => (remapCell 4 3 rawEx (buildGltArray gltxEx gltyEx)
        (-9999) y x b).getD (-9999))
      0 0 0 (by decide) (by decide) (Or.inl rfl) rfl
  exact ⟨h1 rfl, congrArg some h3⟩

/-- C9: the quality-mask build returns the elementwise OR of the selected
flag layers exceeding the `> 0` threshold — a pixel flagged in layer `i` and
unflagged in every other layer is in the combined mask iff `i` is among the
selected indices. -/
theorem quality_mask_or_semantics (layers : ℕ → ℕ → ℕ → ℚ) (flags : List ℕ)
    (i d c : ℕ) (hflag : 0 < layers i d c)
    (hothers : ∀ j, j ≠ i → layers j d c = 0) :
    (quality_mask layers flags d c = true ↔ i ∈ flags) := by
  constructor
  · intro h
    rw [quality_mask, List.any_eq_true] at h
    obtain ⟨j, hj, hjp⟩ := h
    rw [decide_eq_true_iff] at hjp
    by_cases hji : j = i
    · exact hji ▸ hj
    · rw [hothers j hji] at hjp
      exact absurd hjp (lt_irrefl 0)
  · intro h
    rw [quality_mask, List.any_eq_true]
    exact ⟨i, h, decide_eq_true hflag⟩

/-- Flag layers for the witness: layer 1 flags every pixel, the others none. -/
def layersEx : ℕ → ℕ → ℕ → ℚ := fun i _ _ => if i = 1 then 1 else 0

/-- Witness for C9: the pixel flagged only in layer 1 is in the combined mask
when layer 1 is selected, and not when it is not. -/
theorem quality_mask_or_semantics_witness :
    quality_mask layersEx [0, 1, 3] 0 0 = true ∧
    quality_mask layersEx [0, 3] 0 0 ≠ true := by
  constructor
  · exact (quality_mask_or_semantics layersEx [0, 1, 3] 1 0 0
      (by norm_num [layersEx])
      (fun j hj => by simp [layersEx, hj])).mpr (by decide)
  · intro h
    have := (quality_mask_or_semantics layersEx [0, 3] 1 0 0
      (by norm_num [layersEx])
      (fun j hj => by simp [layersEx, hj])).mp h
    simp at this

/-- C10: the remap allocates its output with dtype float32 for every input
dtype; the gather-assignment store into that output is bit-exact for a
float32 input cube and rounding (not bit-exact) for a float64 input cube. -/
theorem remap_output_dtype_float32 :
    (∀ d, remapAllocDtype d = Dtype.float32) ∧
    storeExact Dtype.float32 = true ∧ storeExact Dtype.float64 = false :=
  ⟨fun _ => rfl, rfl, rfl⟩

end Emit
